import Mathlib

/-
Verification development for the doris cloud backend core (be/src/cloud and
be/src/runtime/memory). The memory-tracking lifecycle of LRU cache values is
embedded from src/be/src/runtime/memory/lru_cache_value_base.h; the cloud
configuration flags are embedded from src/be/src/cloud/config.cpp. Components
whose implementation is not part of the sources (lease protocol, RPC retry
loop, connection pool) are modelled from the specification and marked so.
-/

namespace DorisVerify

/-! ## Memory trackers and LRUCacheValueBase
Embedded from src/be/src/runtime/memory/lru_cache_value_base.h.
A tracker (MemTracker / MemTrackerLimiter) is identified by a natural number;
the global tracker state maps each tracker identity to its accounted consumed
bytes. MemTracker::consume and MemTracker::release are plain counter updates. -/

abbrev Trackers := Nat → Int

def consume (s : Trackers) (t : Nat) (n : Nat) : Trackers :=
  fun j => if j = t then s j + (n : Int) else s j

def release (s : Trackers) (t : Nat) (n : Nat) : Trackers :=
  fun j => if j = t then s j - (n : Int) else s j

/-- The fields of class LRUCacheValueBase: `_tracking_bytes`,
`_value_tracking_bytes`, `_mem_tracker`, `_value_mem_tracker`. The two
shared_ptr tracker fields are null (`none`) on a default-constructed value. -/
structure LRUCacheValueBase where
  tracking_bytes : Nat := 0
  value_tracking_bytes : Nat := 0
  mem_tracker : Option Nat := none
  value_mem_tracker : Option Nat := none
deriving DecidableEq

/-- LRUCacheValueBase::set_tracking_bytes: stores the four fields on the entry,
then calls `_mem_tracker->consume(_tracking_bytes)` followed by
`_value_mem_tracker->consume(_value_tracking_bytes)`. Returns the updated
entry together with the updated tracker state. -/
def set_tracking_bytes (tracking_bytes : Nat) (mem_tracker : Nat)
    (value_tracking_bytes : Nat) (value_mem_tracker : Nat) (s : Trackers) :
    LRUCacheValueBase × Trackers :=
  let e : LRUCacheValueBase :=
    { tracking_bytes := tracking_bytes
      value_tracking_bytes := value_tracking_bytes
      mem_tracker := some mem_tracker
      value_mem_tracker := some value_mem_tracker }
  (e, consume (consume s mem_tracker tracking_bytes) value_mem_tracker value_tracking_bytes)

/-- Release on an optional tracker pointer. Dereferencing a null tracker would
be undefined behaviour in the source; the destructor only reaches the tracker
pointers when `_tracking_bytes > 0`, which in every lifecycle considered here
means set_tracking_bytes was called and the pointers are non-null. -/
def releaseOn (s : Trackers) (t : Option Nat) (n : Nat) : Trackers :=
  match t with
  | some t => release s t n
  | none => s

/-- LRUCacheValueBase::~LRUCacheValueBase: when `_tracking_bytes > 0` it
releases `_tracking_bytes` on `_mem_tracker` and `_value_tracking_bytes` on
`_value_mem_tracker`; otherwise it releases nothing at all. -/
def destructor (e : LRUCacheValueBase) (s : Trackers) : Trackers :=
  if 0 < e.tracking_bytes then
    releaseOn (releaseOn s e.mem_tracker e.tracking_bytes) e.value_mem_tracker
      e.value_tracking_bytes
  else s

/-- Bytes an optional tracker field attributes to tracker `id`. -/
def trackOn (t : Option Nat) (id : Nat) (n : Nat) : Int :=
  match t with
  | some t => if id = t then (n : Int) else 0
  | none => 0

/-- Total bytes entry `e` has consumed on tracker `id` via set_tracking_bytes. -/
def LRUCacheValueBase.contribution (e : LRUCacheValueBase) (id : Nat) : Int :=
  trackOn e.mem_tracker id e.tracking_bytes + trackOn e.value_mem_tracker id e.value_tracking_bytes

/-- Bytes the destructor of entry `e` releases on tracker `id`. -/
def LRUCacheValueBase.releaseAmount (e : LRUCacheValueBase) (id : Nat) : Int :=
  if 0 < e.tracking_bytes then e.contribution id else 0

/-! ## Lifecycle traces of cache entries
A system state is the tracker totals together with the multiset of live
entries. A step either creates an entry (a cache insertion calling
set_tracking_bytes once) or destroys a live entry (eviction, invalidation or
shutdown running the destructor). The parameter `P` restricts which entries
may be created. -/

structure SysState where
  trackers : Trackers
  live : List LRUCacheValueBase

inductive Step (P : LRUCacheValueBase → Prop) : SysState → SysState → Prop
  | create (tb mt vtb vmt : Nat) (s : SysState)
      (hP : P (set_tracking_bytes tb mt vtb vmt s.trackers).1) :
      Step P s ⟨(set_tracking_bytes tb mt vtb vmt s.trackers).2,
                (set_tracking_bytes tb mt vtb vmt s.trackers).1 :: s.live⟩
  | destroy (e : LRUCacheValueBase) (s : SysState) (he : e ∈ s.live) :
      Step P s ⟨destructor e s.trackers, s.live.erase e⟩

inductive Reaches (P : LRUCacheValueBase → Prop) (s0 : SysState) : SysState → Prop
  | refl : Reaches P s0 s0
  | step {s1 s2 : SysState} : Reaches P s0 s1 → Step P s1 s2 → Reaches P s0 s2

/-- Sum of the contributions of all live entries to tracker `id`. -/
def liveSum (l : List LRUCacheValueBase) (id : Nat) : Int :=
  (l.map fun e => e.contribution id).sum

/-- No restriction on created entries: any set_tracking_bytes call. -/
def anyEntry : LRUCacheValueBase → Prop := fun _ => True

/-- Entries whose destructor releases exactly what was consumed: either the
entry tracking bytes are positive, or the value tracking bytes are zero. -/
def entryOk (e : LRUCacheValueBase) : Prop :=
  0 < e.tracking_bytes ∨ e.value_tracking_bytes = 0

def zeroTrackers : Trackers := fun _ => 0

def initState : SysState := ⟨zeroTrackers, []⟩

/-- Entry created with tracking_bytes = 0 and value_tracking_bytes = 5 on
trackers 0 and 1: the case in which the destructor releases nothing. -/
def cexEntry : LRUCacheValueBase := (set_tracking_bytes 0 0 5 1 zeroTrackers).1

def cexMid : SysState :=
  ⟨(set_tracking_bytes 0 0 5 1 zeroTrackers).2,
   [(set_tracking_bytes 0 0 5 1 zeroTrackers).1]⟩

def cexFinal : SysState := ⟨destructor cexEntry cexMid.trackers, cexMid.live.erase cexEntry⟩

/-- Entry created with tracking_bytes = 3 and value_tracking_bytes = 5 on
trackers 0 and 1: a well-behaved lifecycle. -/
def demoEntry : LRUCacheValueBase := (set_tracking_bytes 3 0 5 1 zeroTrackers).1

def demoMid : SysState :=
  ⟨(set_tracking_bytes 3 0 5 1 zeroTrackers).2,
   [(set_tracking_bytes 3 0 5 1 zeroTrackers).1]⟩

def demoFinal : SysState := ⟨destructor demoEntry demoMid.trackers, demoMid.live.erase demoEntry⟩

/-! ## Cloud configuration flags
Embedded from src/be/src/cloud/config.cpp. `DEFINE_mX` marks a flag mutable
at runtime, `DEFINE_X` (no `m`) marks it fixed at startup. -/

def meta_service_rpc_retry_times : Nat := 20

def meta_service_rpc_timeout_retry_times : Nat := 2

def meta_service_conflict_error_retry_times : Nat := 10

def delete_bitmap_lock_expiration_seconds : Nat := 10

inductive ConfKind
  | cString | cBool | cInt32 | cInt64 | cDouble
deriving DecidableEq

structure ConfigField where
  name : String
  kind : ConfKind
  isMutable : Bool
deriving DecidableEq

/-- All flags of src/be/src/cloud/config.cpp in file order, with the mutability
bit taken from the `m` in the DEFINE macro. -/
def cloudConfigFields : List ConfigField :=
  [⟨"deploy_mode", .cString, false⟩,
   ⟨"cloud_unique_id", .cString, true⟩,
   ⟨"meta_service_endpoint", .cString, true⟩,
   ⟨"enable_meta_service_endpoint_consistency_check", .cBool, true⟩,
   ⟨"meta_service_use_load_balancer", .cBool, false⟩,
   ⟨"meta_service_rpc_timeout_ms", .cInt32, true⟩,
   ⟨"meta_service_connection_pooled", .cBool, false⟩,
   ⟨"meta_service_connection_pool_size", .cInt64, true⟩,
   ⟨"meta_service_connection_age_base_seconds", .cInt32, true⟩,
   ⟨"meta_service_idle_connection_timeout_ms", .cInt32, true⟩,
   ⟨"meta_service_rpc_retry_times", .cInt32, true⟩,
   ⟨"meta_service_brpc_timeout_ms", .cInt32, true⟩,
   ⟨"meta_service_rpc_timeout_retry_times", .cInt32, true⟩,
   ⟨"tablet_cache_capacity", .cInt64, false⟩,
   ⟨"tablet_cache_shards", .cInt64, false⟩,
   ⟨"tablet_sync_interval_s", .cInt32, true⟩,
   ⟨"init_scanner_sync_rowsets_parallelism", .cInt32, true⟩,
   ⟨"sync_rowsets_slow_threshold_ms", .cInt32, true⟩,
   ⟨"min_compaction_failure_interval_ms", .cInt64, true⟩,
   ⟨"base_compaction_freeze_interval_s", .cInt64, true⟩,
   ⟨"compaction_load_max_freeze_interval_s", .cInt64, true⟩,
   ⟨"cumu_compaction_interval_s", .cInt64, true⟩,
   ⟨"compaction_timeout_seconds", .cInt32, true⟩,
   ⟨"lease_compaction_interval_seconds", .cInt32, true⟩,
   ⟨"enable_parallel_cumu_compaction", .cBool, true⟩,
   ⟨"base_compaction_thread_num_factor", .cDouble, true⟩,
   ⟨"cumu_compaction_thread_num_factor", .cDouble, true⟩,
   ⟨"check_auto_compaction_interval_seconds", .cInt32, true⟩,
   ⟨"max_base_compaction_task_num_per_disk", .cInt32, true⟩,
   ⟨"prioritize_query_perf_in_compaction", .cBool, true⟩,
   ⟨"compaction_max_rowset_count", .cInt32, true⟩,
   ⟨"refresh_s3_info_interval_s", .cInt32, true⟩,
   ⟨"vacuum_stale_rowsets_interval_s", .cInt32, true⟩,
   ⟨"schedule_sync_tablets_interval_s", .cInt32, true⟩,
   ⟨"mow_stream_load_commit_retry_times", .cInt32, true⟩,
   ⟨"save_load_error_log_to_s3", .cBool, true⟩,
   ⟨"sync_load_for_tablets_thread", .cInt32, true⟩,
   ⟨"enable_new_tablet_do_compaction", .cBool, true⟩,
   ⟨"delete_bitmap_lock_expiration_seconds", .cInt32, true⟩,
   ⟨"get_delete_bitmap_lock_max_retry_times", .cInt32, true⟩,
   ⟨"enable_cloud_txn_lazy_commit", .cBool, false⟩,
   ⟨"remove_expired_tablet_txn_info_interval_seconds", .cInt32, true⟩,
   ⟨"tablet_txn_info_min_expired_seconds", .cInt32, true⟩,
   ⟨"enable_use_cloud_unique_id_from_fe", .cBool, true⟩,
   ⟨"enable_cloud_tablet_report", .cBool, true⟩,
   ⟨"delete_bitmap_rpc_retry_times", .cInt32, true⟩,
   ⟨"meta_service_rpc_reconnect_interval_ms", .cInt64, true⟩,
   ⟨"meta_service_conflict_error_retry_times", .cInt32, true⟩,
   ⟨"enable_check_storage_vault", .cBool, false⟩]

inductive KnobCategory
  | timeout | retryCount | interval | capacity | threadFactor
deriving DecidableEq

/-- The tuning knobs of this core, classified into the categories named by the
specification: timeouts, retry counts, intervals, capacities, thread-factors. -/
def tuningKnobs : List (String × KnobCategory) :=
  [("meta_service_rpc_timeout_ms", .timeout),
   ("meta_service_brpc_timeout_ms", .timeout),
   ("meta_service_idle_connection_timeout_ms", .timeout),
   ("compaction_timeout_seconds", .timeout),
   ("delete_bitmap_lock_expiration_seconds", .timeout),
   ("meta_service_rpc_retry_times", .retryCount),
   ("meta_service_rpc_timeout_retry_times", .retryCount),
   ("meta_service_conflict_error_retry_times", .retryCount),
   ("mow_stream_load_commit_retry_times", .retryCount),
   ("get_delete_bitmap_lock_max_retry_times", .retryCount),
   ("delete_bitmap_rpc_retry_times", .retryCount),
   ("tablet_sync_interval_s", .interval),
   ("min_compaction_failure_interval_ms", .interval),
   ("base_compaction_freeze_interval_s", .interval),
   ("compaction_load_max_freeze_interval_s", .interval),
   ("cumu_compaction_interval_s", .interval),
   ("lease_compaction_interval_seconds", .interval),
   ("check_auto_compaction_interval_seconds", .interval),
   ("refresh_s3_info_interval_s", .interval),
   ("vacuum_stale_rowsets_interval_s", .interval),
   ("schedule_sync_tablets_interval_s", .interval),
   ("remove_expired_tablet_txn_info_interval_seconds", .interval),
   ("meta_service_rpc_reconnect_interval_ms", .interval),
   ("meta_service_connection_age_base_seconds", .interval),
   ("tablet_cache_capacity", .capacity),
   ("tablet_cache_shards", .capacity),
   ("meta_service_connection_pool_size", .capacity),
   ("max_base_compaction_task_num_per_disk", .capacity),
   ("compaction_max_rowset_count", .capacity),
   ("base_compaction_thread_num_factor", .threadFactor),
   ("cumu_compaction_thread_num_factor", .threadFactor)]

/-! ## Lease protocol at the meta-service -/

/-- Modelled from the spec: the per-tablet lease record kept at the
meta-service (the CompactionLockManager / meta-service lease code is not part
of the sources; only the flag delete_bitmap_lock_expiration_seconds is).
Attributes per spec section 3: owner identifier, expiration timestamp, epoch. -/
structure LeaseState where
  owner : Option Nat
  expiration : Nat
  epoch : Nat
deriving DecidableEq

inductive LeaseOutcome
  | acquired (epoch : Nat) (expiration : Nat)
  | leaseBusy
  | released
  | mutationOk
  | mutationRejected
deriving DecidableEq

/-- A lease is live at time `now` when it has an owner and has not expired. -/
def leaseLive (now : Nat) (st : LeaseState) : Bool :=
  st.owner.isSome && decide (now < st.expiration)

inductive LeaseOp
  | acquire (now owner : Nat)
  | release (owner : Nat)
  | mutate (epoch : Nat)

/-- Modelled from the spec: one meta-service operation on a tablet lease.
Acquire while a live lease is held returns leaseBusy; a successful acquire
bumps the epoch and grants an expiration of now plus
delete_bitmap_lock_expiration_seconds; a mutation under an epoch that is not
the current one is rejected. -/
def leaseStep (st : LeaseState) : LeaseOp → LeaseState × LeaseOutcome
  | .acquire now owner =>
      if leaseLive now st then (st, .leaseBusy)
      else ({ owner := some owner
              expiration := now + delete_bitmap_lock_expiration_seconds
              epoch := st.epoch + 1 },
            .acquired (st.epoch + 1) (now + delete_bitmap_lock_expiration_seconds))
  | .release owner =>
      if st.owner = some owner then ({ st with owner := none }, .released)
      else (st, .released)
  | .mutate e =>
      if e = st.epoch then (st, .mutationOk) else (st, .mutationRejected)

/-- Outcomes observed when running a list of operations from a state. -/
def leaseRun (st : LeaseState) : List LeaseOp → List LeaseOutcome
  | [] => []
  | op :: ops => (leaseStep st op).2 :: leaseRun (leaseStep st op).1 ops

/-- The epochs returned by the successful acquisitions of a run, in order. -/
def acquiredEpochs (st : LeaseState) (ops : List LeaseOp) : List Nat :=
  (leaseRun st ops).filterMap fun o =>
    match o with
    | .acquired e _ => some e
    | _ => none

/-! ## MetaServiceClient retry loop -/

inductive AttemptOutcome
  | success | timeout | connError | conflict
deriving DecidableEq

inductive RpcResult
  | ok
  | rpcTimeout
  | rpcConnectionFailure
  | rpcConflict
deriving DecidableEq

/-- Modelled from the spec: the MetaServiceClient retry loop (the client code
is not part of the sources; only its three budget flags are). The endpoint is
a function giving the outcome of attempt number `i`. `gen`, `tmo` and `cf` are
the remaining general, timeout and conflict budgets; each outcome kind draws
on its own budget and the call fails with the matching terminal error kind
once that budget is exhausted. Returns the result and the total number of
attempts performed. -/
def retryLoop (ep : Nat → AttemptOutcome) (i gen tmo cf : Nat) : RpcResult × Nat :=
  match ep i with
  | .success => (.ok, i + 1)
  | .timeout =>
      if tmo ≤ 1 then (.rpcTimeout, i + 1)
      else retryLoop ep (i + 1) gen (tmo - 1) cf
  | .connError =>
      if gen ≤ 1 then (.rpcConnectionFailure, i + 1)
      else retryLoop ep (i + 1) (gen - 1) tmo cf
  | .conflict =>
      if cf ≤ 1 then (.rpcConflict, i + 1)
      else retryLoop ep (i + 1) gen tmo (cf - 1)
termination_by gen + tmo + cf
decreasing_by all_goals omega

def alwaysTimeout : Nat → AttemptOutcome := fun _ => .timeout

def alwaysConflict : Nat → AttemptOutcome := fun _ => .conflict

inductive AcquireFailure
  | lockBusy
  | infrastructure
deriving DecidableEq

/-- Modelled from the spec: how a terminal RPC failure of a lease acquisition
is surfaced to the caller — a conflict-exhausted failure becomes lock busy,
the infrastructure failure kinds stay infrastructure failures. -/
def surfaceAcquireFailure : RpcResult → AcquireFailure
  | .rpcConflict => .lockBusy
  | _ => .infrastructure

/-! ## Connection pool -/

/-- Modelled from the spec: a pooled channel with its creation and last-use
times (the pool code is not part of the sources; only its age and idle flags
are). `chanId` is a freshness counter distinguishing physical channels. -/
structure PoolChannel where
  chanId : Nat
  createdAt : Nat
  lastUsedAt : Nat
deriving DecidableEq

structure ConnPool where
  channel : Option PoolChannel
  nextId : Nat
deriving DecidableEq

/-- A channel is expired at `now` when it is older than the age limit or idle
longer than the idle limit. -/
def channelExpired (now ageLimit idleLimit : Nat) (c : PoolChannel) : Bool :=
  decide (ageLimit < now - c.createdAt) || decide (idleLimit < now - c.lastUsedAt)

/-- Modelled from the spec: handing out a channel from the pool at time `now`.
An expired (too old or too idle) pooled channel is retired and replaced by a
freshly created one; a live pooled channel is reused with its last-use time
refreshed. -/
def getChannel (now ageLimit idleLimit : Nat) (p : ConnPool) : PoolChannel × ConnPool :=
  match p.channel with
  | some c =>
      if channelExpired now ageLimit idleLimit c then
        (⟨p.nextId, now, now⟩, ⟨some ⟨p.nextId, now, now⟩, p.nextId + 1⟩)
      else
        (⟨c.chanId, c.createdAt, now⟩, ⟨some ⟨c.chanId, c.createdAt, now⟩, p.nextId⟩)
  | none => (⟨p.nextId, now, now⟩, ⟨some ⟨p.nextId, now, now⟩, p.nextId + 1⟩)

/-! ## Pointwise lemmas about tracker updates -/

theorem consume_apply (s : Trackers) (t n id : Nat) :
    consume s t n id = s id + trackOn (some t) id n := by
  by_cases h : id = t <;> simp [consume, trackOn, h]

theorem releaseOn_apply (s : Trackers) (t : Option Nat) (n id : Nat) :
    releaseOn s t n id = s id - trackOn t id n := by
  cases t with
  | none => simp [releaseOn, trackOn]
  | some t => by_cases h : id = t <;> simp [releaseOn, release, trackOn, h]

theorem trackOn_nonneg (t : Option Nat) (id n : Nat) : 0 ≤ trackOn t id n := by
  cases t with
  | none => simp [trackOn]
  | some t =>
      by_cases h : id = t <;> simp [trackOn, h]

theorem trackOn_zero (t : Option Nat) (id : Nat) : trackOn t id 0 = 0 := by
  cases t with
  | none => rfl
  | some t => by_cases h : id = t <;> simp [trackOn, h]

theorem contribution_nonneg (e : LRUCacheValueBase) (id : Nat) :
    0 ≤ e.contribution id :=
  add_nonneg (trackOn_nonneg _ _ _) (trackOn_nonneg _ _ _)

theorem set_tracking_bytes_entry (tb mt vtb vmt : Nat) (s : Trackers) :
    (set_tracking_bytes tb mt vtb vmt s).1
      = ⟨tb, vtb, some mt, some vmt⟩ := rfl

theorem set_tracking_bytes_apply (tb mt vtb vmt : Nat) (s : Trackers) (id : Nat) :
    (set_tracking_bytes tb mt vtb vmt s).2 id
      = s id + (set_tracking_bytes tb mt vtb vmt s).1.contribution id := by
  show consume (consume s mt tb) vmt vtb id = _
  rw [consume_apply, consume_apply, set_tracking_bytes_entry]
  simp only [LRUCacheValueBase.contribution]
  ring

theorem destructor_apply (e : LRUCacheValueBase) (s : Trackers) (id : Nat) :
    destructor e s id = s id - e.releaseAmount id := by
  unfold destructor LRUCacheValueBase.releaseAmount
  by_cases h : 0 < e.tracking_bytes
  · simp only [h, if_true]
    rw [releaseOn_apply, releaseOn_apply]
    simp only [LRUCacheValueBase.contribution]
    ring
  · simp [h]

theorem releaseAmount_le_contribution (e : LRUCacheValueBase) (id : Nat) :
    e.releaseAmount id ≤ e.contribution id := by
  unfold LRUCacheValueBase.releaseAmount
  by_cases h : 0 < e.tracking_bytes
  · simp [h]
  · simp [h, contribution_nonneg]

theorem entryOk_releaseAmount {e : LRUCacheValueBase} (h : entryOk e) (id : Nat) :
    e.releaseAmount id = e.contribution id := by
  unfold LRUCacheValueBase.releaseAmount
  by_cases hp : 0 < e.tracking_bytes
  · simp [hp]
  · cases h with
    | inl h1 => exact absurd h1 hp
    | inr h2 =>
        have htb : e.tracking_bytes = 0 := by omega
        simp [hp, LRUCacheValueBase.contribution, h2, htb, trackOn_zero]

/-! ## Lemmas about live-entry sums -/

theorem liveSum_nil (id : Nat) : liveSum [] id = 0 := rfl

theorem liveSum_cons (e : LRUCacheValueBase) (l : List LRUCacheValueBase) (id : Nat) :
    liveSum (e :: l) id = e.contribution id + liveSum l id := by
  simp [liveSum]

theorem liveSum_nonneg (l : List LRUCacheValueBase) (id : Nat) : 0 ≤ liveSum l id := by
  induction l with
  | nil => simp [liveSum_nil]
  | cons e l ih =>
      rw [liveSum_cons]
      exact add_nonneg (contribution_nonneg e id) ih

theorem liveSum_erase {e : LRUCacheValueBase} {l : List LRUCacheValueBase}
    (he : e ∈ l) (id : Nat) :
    liveSum (l.erase e) id = liveSum l id - e.contribution id := by
  have hperm : List.Perm l (e :: l.erase e) := List.perm_cons_erase he
  have := (hperm.map fun x => x.contribution id).sum_eq
  simp only [liveSum]
  rw [this]
  simp

/-! ## Reachability invariants -/

theorem reaches_lower_bound {P : LRUCacheValueBase → Prop} {s0 s : SysState}
    (h : Reaches P s0 s) (id : Nat) :
    s0.trackers id - liveSum s0.live id + liveSum s.live id ≤ s.trackers id := by
  induction h with
  | refl => omega
  | step hr hs ih =>
      rename_i s1 s2
      cases hs with
      | create tb mt vtb vmt _ hP =>
          have h2 := set_tracking_bytes_apply tb mt vtb vmt s1.trackers id
          have h3 := liveSum_cons (set_tracking_bytes tb mt vtb vmt s1.trackers).1 s1.live id
          simp only at *
          omega
      | destroy e _ he =>
          have h2 := destructor_apply e s1.trackers id
          have h3 := liveSum_erase he id
          have h4 := releaseAmount_le_contribution e id
          simp only at *
          omega

theorem reaches_live_ok {P : LRUCacheValueBase → Prop} {s0 s : SysState}
    (h : Reaches P s0 s) (h0 : ∀ e ∈ s0.live, P e) :
    ∀ e ∈ s.live, P e := by
  induction h with
  | refl => exact h0
  | step hr hs ih =>
      rename_i s1 s2
      cases hs with
      | create tb mt vtb vmt _ hP =>
          intro e he
          rcases List.mem_cons.mp he with h1 | h1
          · exact h1 ▸ hP
          · exact ih e h1
      | destroy e _ he =>
          intro x hx
          exact ih x (List.mem_of_mem_erase hx)

theorem reaches_exact_delta {s0 s : SysState}
    (h : Reaches entryOk s0 s) (h0 : ∀ e ∈ s0.live, entryOk e) (id : Nat) :
    s.trackers id - liveSum s.live id = s0.trackers id - liveSum s0.live id := by
  induction h with
  | refl => rfl
  | step hr hs ih =>
      rename_i s1 s2
      cases hs with
      | create tb mt vtb vmt _ hP =>
          have h2 := set_tracking_bytes_apply tb mt vtb vmt s1.trackers id
          have h3 := liveSum_cons (set_tracking_bytes tb mt vtb vmt s1.trackers).1 s1.live id
          simp only at *
          omega
      | destroy e _ he =>
          have hok : entryOk e := reaches_live_ok hr h0 e he
          have h2 := destructor_apply e s1.trackers id
          have h3 := liveSum_erase he id
          have h4 := entryOk_releaseAmount hok id
          simp only at *
          omega

/-! ## Lease lemmas -/

theorem leaseStep_epoch_mono (st : LeaseState) (op : LeaseOp) :
    st.epoch ≤ (leaseStep st op).1.epoch := by
  cases op with
  | acquire now owner =>
      by_cases h : leaseLive now st <;> simp [leaseStep, h]
  | release owner =>
      by_cases h : st.owner = some owner <;> simp [leaseStep, h]
  | mutate e =>
      by_cases h : e = st.epoch <;> simp [leaseStep, h]

theorem leaseStep_acquired {st : LeaseState} {op : LeaseOp} {e exp : Nat}
    (h : (leaseStep st op).2 = .acquired e exp) :
    e = st.epoch + 1 ∧ (leaseStep st op).1.epoch = st.epoch + 1 := by
  cases op with
  | acquire now owner =>
      by_cases hl : leaseLive now st <;> simp [leaseStep, hl] at h ⊢
      exact h.1.symm
  | release owner =>
      by_cases hl : st.owner = some owner <;> simp [leaseStep, hl] at h
  | mutate ep =>
      by_cases hl : ep = st.epoch <;> simp [leaseStep, hl] at h

theorem acquiredEpochs_cons (st : LeaseState) (op : LeaseOp) (ops : List LeaseOp) :
    acquiredEpochs st (op :: ops)
      = (match (leaseStep st op).2 with
         | .acquired e _ => [e]
         | _ => []) ++ acquiredEpochs (leaseStep st op).1 ops := by
  cases h : (leaseStep st op).2 <;>
    simp [acquiredEpochs, leaseRun, h, List.filterMap_cons]

theorem acquiredEpochs_gt (ops : List LeaseOp) :
    ∀ st : LeaseState, ∀ e ∈ acquiredEpochs st ops, st.epoch < e := by
  induction ops with
  | nil => intro st e he; simp [acquiredEpochs, leaseRun] at he
  | cons op ops ih =>
      intro st e he
      rw [acquiredEpochs_cons] at he
      rcases List.mem_append.mp he with h1 | h1
      · cases hout : (leaseStep st op).2 <;> rw [hout] at h1 <;> simp at h1
        rcases leaseStep_acquired hout with ⟨he1, _⟩
        omega
      · have h2 := ih (leaseStep st op).1 e h1
        have h3 := leaseStep_epoch_mono st op
        omega

theorem acquiredEpochs_pairwise (ops : List LeaseOp) :
    ∀ st : LeaseState, List.Pairwise (· < ·) (acquiredEpochs st ops) := by
  induction ops with
  | nil => intro st; simp [acquiredEpochs, leaseRun]
  | cons op ops ih =>
      intro st
      rw [acquiredEpochs_cons]
      cases hout : (leaseStep st op).2 with
      | acquired e exp =>
          simp only [List.singleton_append, List.pairwise_cons]
          refine ⟨?_, ih _⟩
          intro x hx
          have h1 := acquiredEpochs_gt ops (leaseStep st op).1 x hx
          rcases leaseStep_acquired hout with ⟨he1, he2⟩
          omega
      | leaseBusy => simpa using ih _
      | released => simpa using ih _
      | mutationOk => simpa using ih _
      | mutationRejected => simpa using ih _

/-! ## Retry-loop lemmas -/

theorem retryLoop_alwaysTimeout (gen cf : Nat) :
    ∀ tmo i, 1 ≤ tmo → retryLoop alwaysTimeout i gen tmo cf = (.rpcTimeout, i + tmo) := by
  intro tmo
  induction tmo with
  | zero => intro i h; omega
  | succ n ih =>
      intro i h
      rw [retryLoop]
      by_cases hn : n = 0
      · subst hn; simp [alwaysTimeout]
      · have h1 : ¬ (n + 1 ≤ 1) := by omega
        simp only [alwaysTimeout, h1, if_false]
        have h2 := ih (i + 1) (by omega)
        simp only [Nat.add_sub_cancel]
        rw [h2]
        have h3 : i + 1 + n = i + (n + 1) := by omega
        rw [h3]

theorem retryLoop_alwaysConflict (gen tmo : Nat) :
    ∀ cf i, 1 ≤ cf → retryLoop alwaysConflict i gen tmo cf = (.rpcConflict, i + cf) := by
  intro cf
  induction cf with
  | zero => intro i h; omega
  | succ n ih =>
      intro i h
      rw [retryLoop]
      by_cases hn : n = 0
      · subst hn; simp [alwaysConflict]
      · have h1 : ¬ (n + 1 ≤ 1) := by omega
        simp only [alwaysConflict, h1, if_false]
        have h2 := ih (i + 1) (by omega)
        simp only [Nat.add_sub_cancel]
        rw [h2]
        have h3 : i + 1 + n = i + (n + 1) := by omega
        rw [h3]

/-! ## Claim theorems -/

/-- C1 counterexample: an entry created by a single set_tracking_bytes call
with tracking_bytes = 0 and value_tracking_bytes = 5 on trackers 0 and 1 is
created and then destroyed; all entries are gone, yet tracker 1 sits at 5
bytes, not at its pre-test baseline 0, because the destructor guards every
release behind tracking_bytes > 0. -/
theorem C1_counterexample :
    Reaches anyEntry initState cexFinal ∧ cexFinal.live = [] ∧
    cexFinal.trackers 1 = 5 ∧ initState.trackers 1 = 0 :=
  ⟨Reaches.step (Reaches.step Reaches.refl (Step.create 0 0 5 1 initState trivial))
      (Step.destroy cexEntry cexMid (by decide)),
   by decide, by decide, rfl⟩

/-- C1 (amended): for every sequence of entry creations and destructions in
which each set_tracking_bytes call passes tracking_bytes > 0 or a zero
value_tracking_bytes, destruction performs exactly one release of each tracked
amount on the tracker that received the matching consume, so every tracker
returns exactly to its pre-test baseline once all entries are destroyed. -/
theorem C1_tracker_baseline (s0 s : SysState) (h : Reaches entryOk s0 s)
    (h0 : s0.live = []) (hend : s.live = []) (id : Nat) :
    s.trackers id = s0.trackers id := by
  have hd := reaches_exact_delta h (by rw [h0]; simp) id
  rw [h0, hend] at hd
  have h1 : liveSum [] id = 0 := rfl
  omega

/-- Witness for amended C1: creating and destroying an entry with
tracking_bytes = 3 and value_tracking_bytes = 5 returns tracker 1 to its
baseline. -/
theorem C1_witness : demoFinal.trackers 1 = initState.trackers 1 :=
  C1_tracker_baseline initState demoFinal
    (Reaches.step (Reaches.step Reaches.refl
        (Step.create 3 0 5 1 initState (Or.inl (by decide))))
      (Step.destroy demoEntry demoMid (by decide)))
    rfl (by decide) 1

/-- C2: while a live lease is held, a second acquire returns leaseBusy and
leaves the lease state unchanged; along any run of lease operations the epochs
returned by successful acquisitions are strictly increasing; and a mutation
submitted under an epoch other than the current one is rejected. -/
theorem C2_lease_exclusion_and_epochs (st : LeaseState) (now owner ep : Nat)
    (ops : List LeaseOp) :
    (leaseLive now st = true → leaseStep st (.acquire now owner) = (st, .leaseBusy)) ∧
    List.Pairwise (· < ·) (acquiredEpochs st ops) ∧
    (ep ≠ st.epoch → (leaseStep st (.mutate ep)).2 = .mutationRejected) := by
  refine ⟨?_, acquiredEpochs_pairwise ops st, ?_⟩
  · intro h; simp [leaseStep, h]
  · intro h; simp [leaseStep, h]

/-- Witness for C2: owner 1 holds a live lease (epoch 1, expiring at 10); at
time 5 an acquire by owner 2 returns leaseBusy, and a mutation under the stale
epoch 0 is rejected. -/
theorem C2_witness :
    leaseStep ⟨some 1, 10, 1⟩ (.acquire 5 2) = (⟨some 1, 10, 1⟩, .leaseBusy) ∧
    (leaseStep ⟨some 1, 10, 1⟩ (.mutate 0)).2 = .mutationRejected :=
  ⟨(C2_lease_exclusion_and_epochs ⟨some 1, 10, 1⟩ 5 2 0 []).1 (by decide),
   (C2_lease_exclusion_and_epochs ⟨some 1, 10, 1⟩ 5 2 0 []).2.2 (by decide)⟩

/-- C3: set_tracking_bytes consumes the entry-overhead bytes on the entry
tracker and the payload bytes on the separate caller-supplied value tracker,
and both consumes are reflected in the tracker totals immediately after the
call returns. -/
theorem C3_set_tracking_bytes_consumes (tb mt vtb vmt : Nat) (s : Trackers)
    (h : mt ≠ vmt) :
    (set_tracking_bytes tb mt vtb vmt s).2 mt = s mt + tb ∧
    (set_tracking_bytes tb mt vtb vmt s).2 vmt = s vmt + vtb := by
  constructor
  · show consume (consume s mt tb) vmt vtb mt = _
    rw [consume_apply, consume_apply]
    simp [trackOn, h]
  · show consume (consume s mt tb) vmt vtb vmt = _
    rw [consume_apply, consume_apply]
    simp [trackOn, Ne.symm h]

/-- Witness for C3: consuming 7 entry bytes on tracker 0 and 9 payload bytes
on tracker 1. -/
theorem C3_witness :
    (set_tracking_bytes 7 0 9 1 zeroTrackers).2 0 = zeroTrackers 0 + 7 ∧
    (set_tracking_bytes 7 0 9 1 zeroTrackers).2 1 = zeroTrackers 1 + 9 :=
  C3_set_tracking_bytes_consumes 7 0 9 1 zeroTrackers (by decide)

/-- C4: an entry whose set_tracking_bytes call passed tracking_bytes = 0 has
its value tracker consumed, yet its destructor performs no release on either
tracker — the tracker state is left unchanged, so the value bytes are never
released. -/
theorem C4_zero_tracking_no_release (mt vtb vmt : Nat) (s : Trackers) :
    destructor (set_tracking_bytes 0 mt vtb vmt s).1 (set_tracking_bytes 0 mt vtb vmt s).2
      = (set_tracking_bytes 0 mt vtb vmt s).2 ∧
    (set_tracking_bytes 0 mt vtb vmt s).2 vmt = s vmt + vtb := by
  constructor
  · rfl
  · show consume (consume s mt 0) vmt vtb vmt = _
    rw [consume_apply, consume_apply, trackOn_zero]
    simp [trackOn]

/-- C5: along every sequence of cache-entry creations (each consuming via
set_tracking_bytes) and destructions (each releasing at most what that entry
consumed), the accounted total of every tracker never goes negative. -/
theorem C5_tracker_never_negative (s : SysState)
    (h : Reaches anyEntry initState s) (id : Nat) : 0 ≤ s.trackers id := by
  have hb := reaches_lower_bound h id
  have hn := liveSum_nonneg s.live id
  have h0 : initState.trackers id = 0 := rfl
  have h1 : liveSum initState.live id = 0 := rfl
  omega

/-- Witness for C5: a concrete create-then-destroy run keeps tracker 1
non-negative. -/
theorem C5_witness : 0 ≤ demoFinal.trackers 1 :=
  C5_tracker_never_negative demoFinal
    (Reaches.step (Reaches.step Reaches.refl (Step.create 3 0 5 1 initState trivial))
      (Step.destroy demoEntry demoMid (by decide)))
    1

/-- C6: the timeout retry budget is distinct from and smaller than the general
retry budget (defaults 2 versus 20), and a call against an endpoint that
always times out fails with rpcTimeout after exactly the timeout budget many
attempts, not the general budget many. -/
theorem C6_timeout_retry_budget (gen tmo cf i : Nat) (h : 1 ≤ tmo) :
    retryLoop alwaysTimeout i gen tmo cf = (.rpcTimeout, i + tmo) ∧
    meta_service_rpc_timeout_retry_times < meta_service_rpc_retry_times ∧
    meta_service_rpc_timeout_retry_times = 2 ∧ meta_service_rpc_retry_times = 20 :=
  ⟨retryLoop_alwaysTimeout gen cf tmo i h, by decide, rfl, rfl⟩

/-- Witness for C6 at the configured defaults: exactly 2 attempts, not 20. -/
theorem C6_witness :
    retryLoop alwaysTimeout 0 20 2 10 = (.rpcTimeout, 0 + 2) ∧
    meta_service_rpc_timeout_retry_times < meta_service_rpc_retry_times ∧
    meta_service_rpc_timeout_retry_times = 2 ∧ meta_service_rpc_retry_times = 20 :=
  C6_timeout_retry_budget 20 2 10 0 (by decide)

/-- C7: a call against an endpoint that always returns conflicts is retried
exactly the conflict budget (default 10) many times and then fails with the
distinguishable kind rpcConflict, which a lease acquisition surfaces as lock
busy rather than as an infrastructure failure. -/
theorem C7_conflict_retry_budget (gen tmo cf i : Nat) (h : 1 ≤ cf) :
    retryLoop alwaysConflict i gen tmo cf = (.rpcConflict, i + cf) ∧
    meta_service_conflict_error_retry_times = 10 ∧
    surfaceAcquireFailure .rpcConflict = .lockBusy :=
  ⟨retryLoop_alwaysConflict gen tmo cf i h, rfl, rfl⟩

/-- Witness for C7 at the configured default conflict budget. -/
theorem C7_witness :
    retryLoop alwaysConflict 0 20 2 10 = (.rpcConflict, 0 + 10) ∧
    meta_service_conflict_error_retry_times = 10 ∧
    surfaceAcquireFailure .rpcConflict = .lockBusy :=
  C7_conflict_retry_budget 20 2 10 0 (by decide)

/-- C8 counterexample: tablet_cache_capacity is a capacity tuning knob of this
core, yet it is defined with the non-mutable DEFINE_Int64 macro, so not every
tuning knob is sourced as a runtime-mutable field. -/
theorem C8_counterexample :
    ("tablet_cache_capacity", KnobCategory.capacity) ∈ tuningKnobs ∧
    (⟨"tablet_cache_capacity", .cInt64, false⟩ : ConfigField) ∈ cloudConfigFields ∧
    (⟨"tablet_cache_capacity", .cInt64, false⟩ : ConfigField).isMutable = false :=
  ⟨by decide, by decide, rfl⟩

/-- C8 (amended): every tuning knob of this core — timeouts, retry counts,
intervals, capacities and thread-factors — except the cache capacity and shard
count (tablet_cache_capacity and tablet_cache_shards, both fixed at startup)
is sourced from the configuration store as a field marked mutable. -/
theorem C8_knobs_mutable (nm : String) (cat : KnobCategory) (f : ConfigField)
    (hknob : (nm, cat) ∈ tuningKnobs)
    (hcap : nm ≠ "tablet_cache_capacity") (hsh : nm ≠ "tablet_cache_shards")
    (hf : f ∈ cloudConfigFields) (hname : f.name = nm) :
    f.isMutable = true := by
  have hall : ∀ p ∈ tuningKnobs, ∀ g ∈ cloudConfigFields,
      p.1 ≠ "tablet_cache_capacity" → p.1 ≠ "tablet_cache_shards" →
      g.name = p.1 → g.isMutable = true := by decide
  exact hall (nm, cat) hknob f hf hcap hsh hname

/-- Witness for amended C8: meta_service_rpc_retry_times is a retry-count
knob and is runtime-mutable. -/
theorem C8_witness :
    (⟨"meta_service_rpc_retry_times", .cInt32, true⟩ : ConfigField).isMutable = true :=
  C8_knobs_mutable "meta_service_rpc_retry_times" .retryCount
    ⟨"meta_service_rpc_retry_times", .cInt32, true⟩ (by decide) (by decide)
    (by decide) (by decide) rfl

/-- C9: a pooled channel past its age limit or idle limit is never handed out
for reuse: the next call hands out a freshly created replacement channel, and
every channel handed out by the pool is within both limits. -/
theorem C9_expired_channel_retired (now ageLimit idleLimit : Nat) (p : ConnPool)
    (c : PoolChannel) (hc : p.channel = some c)
    (hexp : channelExpired now ageLimit idleLimit c = true) :
    (getChannel now ageLimit idleLimit p).1 = ⟨p.nextId, now, now⟩ ∧
    (getChannel now ageLimit idleLimit p).2.nextId = p.nextId + 1 ∧
    (∀ q : ConnPool, channelExpired now ageLimit idleLimit
        (getChannel now ageLimit idleLimit q).1 = false) := by
  refine ⟨by simp [getChannel, hc, hexp], by simp [getChannel, hc, hexp], ?_⟩
  intro q
  cases hq : q.channel with
  | none =>
      simp only [getChannel, hq]
      simp only [channelExpired, Bool.or_eq_false_iff, decide_eq_false_iff_not]
      omega
  | some d =>
      simp only [getChannel, hq]
      by_cases hd : channelExpired now ageLimit idleLimit d = true
      · rw [if_pos hd]
        simp only [channelExpired, Bool.or_eq_false_iff, decide_eq_false_iff_not]
        omega
      · rw [if_neg hd]
        simp only [channelExpired, Bool.or_eq_true, decide_eq_true_eq, not_or] at hd
        simp only [channelExpired, Bool.or_eq_false_iff, decide_eq_false_iff_not]
        exact ⟨hd.1, by omega⟩

/-- Witness for C9: a channel created at time 0 is expired at time 100 under a
30 second age limit and the pool hands out a fresh, non-expired channel. -/
theorem C9_witness :
    (getChannel 100 30 50 ⟨some ⟨0, 0, 0⟩, 1⟩).1 = ⟨1, 100, 100⟩ ∧
    channelExpired 100 30 50 (getChannel 100 30 50 ⟨some ⟨0, 0, 0⟩, 1⟩).1 = false :=
  ⟨(C9_expired_channel_retired 100 30 50 ⟨some ⟨0, 0, 0⟩, 1⟩ ⟨0, 0, 0⟩ rfl (by decide)).1,
   (C9_expired_channel_retired 100 30 50 ⟨some ⟨0, 0, 0⟩, 1⟩ ⟨0, 0, 0⟩ rfl
      (by decide)).2.2 ⟨some ⟨0, 0, 0⟩, 1⟩⟩

/-- C10: a second set_tracking_bytes call on the same live entry consumes its
new amounts without releasing the first call's amounts, and the destructor
then releases only the amounts and trackers recorded by the most recent call,
so the first call's consumed bytes are never released. -/
theorem C10_second_call_leaks (tb1 mt1 vtb1 vmt1 tb2 mt2 vtb2 vmt2 : Nat)
    (s : Trackers) (h2 : 0 < tb2) (id : Nat) :
    (set_tracking_bytes tb2 mt2 vtb2 vmt2 (set_tracking_bytes tb1 mt1 vtb1 vmt1 s).2).2 id
      = s id + (set_tracking_bytes tb1 mt1 vtb1 vmt1 s).1.contribution id
          + (set_tracking_bytes tb2 mt2 vtb2 vmt2
              (set_tracking_bytes tb1 mt1 vtb1 vmt1 s).2).1.contribution id ∧
    destructor (set_tracking_bytes tb2 mt2 vtb2 vmt2 (set_tracking_bytes tb1 mt1 vtb1 vmt1 s).2).1
        (set_tracking_bytes tb2 mt2 vtb2 vmt2 (set_tracking_bytes tb1 mt1 vtb1 vmt1 s).2).2 id
      = s id + (set_tracking_bytes tb1 mt1 vtb1 vmt1 s).1.contribution id := by
  have ha := set_tracking_bytes_apply tb1 mt1 vtb1 vmt1 s id
  have hb := set_tracking_bytes_apply tb2 mt2 vtb2 vmt2
    (set_tracking_bytes tb1 mt1 vtb1 vmt1 s).2 id
  have hc := destructor_apply
    (set_tracking_bytes tb2 mt2 vtb2 vmt2 (set_tracking_bytes tb1 mt1 vtb1 vmt1 s).2).1
    (set_tracking_bytes tb2 mt2 vtb2 vmt2 (set_tracking_bytes tb1 mt1 vtb1 vmt1 s).2).2 id
  have hr : (set_tracking_bytes tb2 mt2 vtb2 vmt2
        (set_tracking_bytes tb1 mt1 vtb1 vmt1 s).2).1.releaseAmount id
      = (set_tracking_bytes tb2 mt2 vtb2 vmt2
          (set_tracking_bytes tb1 mt1 vtb1 vmt1 s).2).1.contribution id := by
    unfold LRUCacheValueBase.releaseAmount
    rw [set_tracking_bytes_entry]
    simp [h2]
  constructor
  · omega
  · omega

/-- Witness for C10: first call consumes 3 + 5 bytes on tracker 0, second call
consumes 4 + 6 bytes on tracker 1; after destruction tracker 0 still holds the
first call's 8 bytes. -/
theorem C10_witness :
    destructor (set_tracking_bytes 4 1 6 1 (set_tracking_bytes 3 0 5 0 zeroTrackers).2).1
        (set_tracking_bytes 4 1 6 1 (set_tracking_bytes 3 0 5 0 zeroTrackers).2).2 0 = 8 := by
  have h := (C10_second_call_leaks 3 0 5 0 4 1 6 1 zeroTrackers (by decide) 0).2
  rw [h]
  decide

end DorisVerify
